import Mathlib

/-!
# A shallow embedding of RustPython's `vm/src/pyobject.rs`

This file embeds the runtime value engine of the interpreter — the
`PyObjectKind` tagged union, the arithmetic operator dispatch
(`Add`/`Sub`/`Mul`/`Div` on `&PyObject`), structural equality
(`PartialEq for PyObject`), the `str` rendering function, the iterator
protocol (`PyObject::nxt`), and the `PyContext` factories — and proves
properties of the embedded definitions.

Two complementary models are used, each faithful to the source for its scope:

* a *value model* (`PyObjectKind` below): the arithmetic operators,
  equality and `str` in the source read `self.kind` and, for containers,
  dereference element `Rc` references; they never read `typ` or `dict` and
  never mutate.  For the acyclic object graphs these operations are applied
  to, the graph is represented as a tree in which every reference is
  replaced by its referent's kind.

* a *reference model* (namespace `RefModel`): an explicit heap of
  `PyObject` records addressed by `Rc`-reference indices, for the claims
  where aliasing, in-place mutation and object identity matter
  (the `PyContext` factories, `Default for PyObject`, `PyObject::nxt`).

Rust panics (`panic!`, division by zero, arithmetic overflow under the
debug semantics that the crate's own `cargo test` runs exercise) are
modelled by the `EvalResult.panicked` outcome; the `Err` branch of the
source's two-outcome `PyResult` channel is modelled by `EvalResult.exc`.
The embedded primitive operations never produce `EvalResult.exc`, exactly
as in the source, where none of them returns a `PyResult`.
-/

/-- The error taxonomy the specification assigns to the two-outcome result
channel (`PyResult`): `TypeError`, `ValueError`, `OverflowError`,
`DivisionByZeroError`, `NotCallableError`, `UnsupportedIterationError`. -/
inductive PyError where
  | typeError
  | valueError
  | overflowError
  | divisionByZeroError
  | notCallableError
  | unsupportedIterationError
deriving DecidableEq

/-- Outcome of evaluating an embedded operation.  `ok` is a normal value;
`exc` is the `Err` branch of the source's `PyResult` two-outcome channel;
`panicked` is a Rust `panic!` — the process-terminating path, not a value
travelling through the result channel. -/
inductive EvalResult (α : Type) where
  | ok (value : α)
  | exc (error : PyError)
  | panicked (message : String)

/-- Smallest `i32` value, `-2^31`. -/
def i32Min : Int := -2147483648

/-- Largest `i32` value, `2^31 - 1`. -/
def i32Max : Int := 2147483647

/-- `v` is representable as a 32-bit signed integer. -/
def i32InRange (v : Int) : Prop := i32Min ≤ v ∧ v ≤ i32Max

instance (v : Int) : Decidable (i32InRange v) := by
  unfold i32InRange; infer_instance

/-- The `PyObjectKind` enum of the source, with every `PyObjectRef` payload
replaced by the referent's kind (value model, see the header).  `Code` and
`Function` store an opaque compiled-program blob the source never inspects,
and `RustFunction` stores a native function pointer the value-level
operations never call, so those payloads carry no data here. -/
inductive PyObjectKind where
  | string (value : String)
  | integer (value : Int)
  | boolean (value : Bool)
  | list (elements : List PyObjectKind)
  | tuple (elements : List PyObjectKind)
  | dict (elements : List (String × PyObjectKind))
  | iterator (position : Nat) (iterated_obj : PyObjectKind)
  | slice (start stop step : Option Int)
  | nameError (name : String)
  | code
  | function
  | module (name : String)
  | none
  | class_ (name : String)
  | rustFunction

namespace PyObjectKind

/-- `impl fmt::Debug for PyObjectKind`: strings print as `str[v]`, every
other kind prints as `Some kind of python obj`. -/
def debugFmt : PyObjectKind → String
  | .string value => "str[" ++ value ++ "]"
  | _ => "Some kind of python obj"

/-- `impl fmt::Debug for PyObject`: `[PyObj {kind}]` (the `typ` and `dict`
fields are not printed). -/
def objDebugFmt (kind : PyObjectKind) : String :=
  "[PyObj " ++ debugFmt kind ++ "]"

/-- `impl Add for &PyObject`.  The Integer branch is the raw Rust
`value1 + value2` on `i32`, which panics when the sum overflows (debug
build semantics); there is no `checked_add` and no `OverflowError` in the
source.  All unsupported pairings hit `panic!("NOT IMPL")`. -/
def add : PyObjectKind → PyObjectKind → EvalResult PyObjectKind
  | .integer value1, .integer value2 =>
      if i32InRange (value1 + value2) then .ok (.integer (value1 + value2))
      else .panicked "attempt to add with overflow"
  | .integer _, _ => .panicked "NOT IMPL"
  | .string value1, .string value2 => .ok (.string (value1 ++ value2))
  | .string _, _ => .panicked "NOT IMPL"
  | .list e1, .list e2 => .ok (.list (e1 ++ e2))
  | .list _, _ => .panicked "NOT IMPL"
  | _, _ => .panicked "NOT IMPL"

/-- `impl Sub for &PyObject`: raw `i32` difference (panics on overflow);
everything else is `panic!("NOT IMPL")`. -/
def sub : PyObjectKind → PyObjectKind → EvalResult PyObjectKind
  | .integer value1, .integer value2 =>
      if i32InRange (value1 - value2) then .ok (.integer (value1 - value2))
      else .panicked "attempt to subtract with overflow"
  | _, _ => .panicked "NOT IMPL"

/-- The `String * Integer` loop of `impl Mul`: `for _x in 0..value2`
appends `value1` once per iteration, so the result is `value1` repeated
`max value2 0` times, built by successive right-appends. -/
def strRepeat (value1 : String) : Nat → String
  | 0 => ""
  | n + 1 => strRepeat value1 n ++ value1

/-- `impl Mul for &PyObject`.  Integer·Integer is the raw `i32` product
(panics on overflow, debug semantics); String·Integer runs the repeat loop
(`0..value2` is empty when `value2 ≤ 0`); everything else is
`panic!("NOT IMPL")`. -/
def mul : PyObjectKind → PyObjectKind → EvalResult PyObjectKind
  | .integer value1, .integer value2 =>
      if i32InRange (value1 * value2) then .ok (.integer (value1 * value2))
      else .panicked "attempt to multiply with overflow"
  | .integer _, _ => .panicked "NOT IMPL"
  | .string value1, .integer value2 => .ok (.string (strRepeat value1 value2.toNat))
  | .string _, _ => .panicked "NOT IMPL"
  | _, _ => .panicked "NOT IMPL"

/-- `impl Div for &PyObject`: the raw Rust `value1 / value2` on `i32`,
which truncates toward zero, panics when `value2 == 0`, and panics on the
single overflowing case `i32::MIN / -1`; everything else is
`panic!("NOT IMPL")`. -/
def div : PyObjectKind → PyObjectKind → EvalResult PyObjectKind
  | .integer value1, .integer value2 =>
      if value2 = 0 then .panicked "attempt to divide by zero"
      else if value1 = i32Min ∧ value2 = -1 then .panicked "attempt to divide with overflow"
      else .ok (.integer (Int.tdiv value1 value2))
  | _, _ => .panicked "NOT IMPL"

end PyObjectKind

example : PyObjectKind.add (.integer 1) (.integer 2) = .ok (.integer 3) := rfl
example : PyObjectKind.div (.integer 7) (.integer 2) = .ok (.integer 3) := rfl
example : PyObjectKind.mul (.string "ab") (.integer 3) = .ok (.string "ababab") := rfl
example : PyObjectKind.mul (.string "ab") (.integer (-1)) = .ok (.string "") := rfl

namespace PyObjectKind

mutual

/-- `impl PartialEq for PyObject`: Integer/Integer compare numerically,
String/String by value, List/List by equal length and pairwise element
equality (`zip` + short-circuiting `all`, recursing through the element
references); every other pairing hits
`panic!("TypeError in COMPARE_OP: can't compare {:?} with {:?}", ...)`. -/
def eq : PyObjectKind → PyObjectKind → EvalResult Bool
  | .integer v1i, .integer v2i => .ok (decide (v2i = v1i))
  | .string v1i, .string v2i => .ok (decide (v2i = v1i))
  | .list l1, .list l2 =>
      if l1.length = l2.length then eqZipAll l1 l2 else .ok false
  | a, b =>
      .panicked ("TypeError in COMPARE_OP: can\x27t compare " ++
        objDebugFmt a ++ " with " ++ objDebugFmt b)

/-- `Iterator::zip(l1.iter(), l2.iter()).all(|elem| elem.0 == elem.1)`:
element comparisons run left to right, a `false` short-circuits, a panic
in an element comparison aborts the whole comparison, and `zip` stops at
the shorter list. -/
def eqZipAll : List PyObjectKind → List PyObjectKind → EvalResult Bool
  | x :: xs, y :: ys =>
      match eq x y with
      | .ok true => eqZipAll xs ys
      | .ok false => .ok false
      | .exc e => .exc e
      | .panicked m => .panicked m
  | _, _ => .ok true

end

/-- Rust `{:?}` Debug rendering of an `Option<i32>` (used by the `Slice`
arm of `str`): `None` or `Some(v)`. -/
def optIntDebugFmt : Option Int → String
  | Option.none => "None"
  | some v => "Some(" ++ toString v ++ ")"

mutual

/-- `PyObject::str`: renders 13 of the 15 kinds; `Dict` and `NameError`
fall through to the catch-all `panic!("Not impl")`.  Lists render as
`[e1, e2]`, tuples as `{e1, e2}` (the braces are written with `\x7b`/`\x7d`
escapes), `None` as the literal `None`, and `Slice` uses the `{:?}` Debug
rendering of its three `Option<i32>` fields. -/
def str : PyObjectKind → EvalResult String
  | .string value => .ok value
  | .integer value => .ok (toString value)
  | .boolean value => .ok (if value then "true" else "false")
  | .list elements =>
      match strAll elements with
      | .ok parts => .ok ("[" ++ String.intercalate ", " parts ++ "]")
      | .exc e => .exc e
      | .panicked m => .panicked m
  | .tuple elements =>
      match strAll elements with
      | .ok parts => .ok ("\x7b" ++ String.intercalate ", " parts ++ "\x7d")
      | .exc e => .exc e
      | .panicked m => .panicked m
  | .none => .ok "None"
  | .class_ name => .ok ("<class \x27" ++ name ++ "\x27>")
  | .code => .ok "<code>"
  | .function => .ok "<func>"
  | .rustFunction => .ok "<rustfunc>"
  | .module name => .ok ("<module \x27" ++ name ++ "\x27>")
  | .slice start stop step =>
      .ok ("<slice \x27" ++ optIntDebugFmt start ++ ":" ++ optIntDebugFmt stop ++
        ":" ++ optIntDebugFmt step ++ "\x27>")
  | .iterator position iterated_obj =>
      match str iterated_obj with
      | .ok s => .ok ("<iter pos " ++ toString position ++ " in " ++ s ++ ">")
      | .exc e => .exc e
      | .panicked m => .panicked m
  | .dict _ => .panicked "Not impl"
  | .nameError _ => .panicked "Not impl"

/-- The `elements.iter().map(|elem| elem.borrow_mut().str()).collect()`
step of container rendering: renders elements left to right; a panic in an
element rendering aborts the whole rendering. -/
def strAll : List PyObjectKind → EvalResult (List String)
  | [] => .ok []
  | e :: es =>
      match str e with
      | .ok s =>
          match strAll es with
          | .ok ss => .ok (s :: ss)
          | .exc er => .exc er
          | .panicked m => .panicked m
      | .exc er => .exc er
      | .panicked m => .panicked m

end

end PyObjectKind

example : PyObjectKind.eq (.integer 3) (.integer 3) = .ok true := rfl
example : PyObjectKind.eq (.list [.integer 1]) (.list [.integer 1, .integer 2]) = .ok false := rfl
example : PyObjectKind.str (.list [.integer 1, .integer 2]) = .ok "[1, 2]" := rfl
example : PyObjectKind.str (.tuple [.integer 1, .integer 2]) = .ok "\x7b1, 2\x7d" := rfl
example : PyObjectKind.str (.boolean true) = .ok "true" := rfl
example : PyObjectKind.str (.slice (some 1) Option.none (some 2)) =
    .ok "<slice \x27Some(1):None:Some(2)\x27>" := rfl

namespace RefModel

/-- An `Rc<RefCell<PyObject>>` reference (`PyObjectRef`), modelled as an
index into an allocation-ordered heap. -/
abbrev Ref := Nat

/-- The `PyObjectKind` enum with its `PyObjectRef` payloads kept as
explicit references (reference model, see the header). -/
inductive PyObjectKind where
  | string (value : String)
  | integer (value : Int)
  | boolean (value : Bool)
  | list (elements : List Ref)
  | tuple (elements : List Ref)
  | dict (elements : List (String × Ref))
  | iterator (position : Nat) (iterated_obj : Ref)
  | slice (start stop step : Option Int)
  | nameError (name : String)
  | code
  | function
  | module (name : String)
  | none
  | class_ (name : String)
  | rustFunction

/-- The `PyObject` struct: `kind`, the optional type-link `typ`, and the
`__dict__` attribute table (text keys to references). -/
structure PyObject where
  kind : PyObjectKind
  typ : Option Ref
  dict : List (String × Ref)

/-- The set of live allocations; `Ref` n denotes the n-th allocation. -/
structure Heap where
  objs : List PyObject

/-- The heap before any object has been allocated. -/
def emptyHeap : Heap := ⟨[]⟩

/-- `Rc::new(RefCell::new(obj))` (`PyObject::into_ref`): a fresh reference
to a newly stored object. -/
def Heap.alloc (h : Heap) (obj : PyObject) : Ref × Heap :=
  (h.objs.length, ⟨h.objs ++ [obj]⟩)

/-- `borrow()` through a reference: read the referenced object. -/
def Heap.get (h : Heap) (r : Ref) : Option PyObject :=
  h.objs[r]?

/-- `borrow_mut()` in-place update through a reference. -/
def Heap.set (h : Heap) (r : Ref) (obj : PyObject) : Heap :=
  ⟨h.objs.set r obj⟩

/-- `impl Default for PyObject`: kind `None`, absent type-link, empty
attribute table — built directly, not through any `PyContext` factory. -/
def PyObject.default : PyObject :=
  { kind := .none, typ := Option.none, dict := [] }

/-- `PyObject::new`: the single construction entry point — wraps the given
kind with the given type-link and an empty `__dict__` in a fresh
reference. -/
def PyObject.new (kind : PyObjectKind) (typ : Ref) (h : Heap) : Ref × Heap :=
  h.alloc { kind := kind, typ := some typ, dict := [] }

/-- Modelled from the spec: `objtype::create_type` lives in module
`objtype`, which is not under `src/`.  Per §4.2 the universal "type"
object is built before any other type object; its own type-link may be
absent or self-referential — the call `objtype::create_type()` takes no
type argument, so the absent policy is pinned here.  It allocates a fresh
object. -/
def objtype.create_type (h : Heap) : Ref × Heap :=
  h.alloc { kind := .class_ "type", typ := Option.none, dict := [] }

/-- Modelled from the spec: `objint::create_type` lives in module
`objint`, which is not under `src/`.  Per §4.2 every type object other
than the universal one has its type-link pointing at the universal type
object, which `PyContext::new` passes in; it allocates a fresh object. -/
def objint.create_type (type_type : Ref) (h : Heap) : Ref × Heap :=
  h.alloc { kind := .class_ "int", typ := some type_type, dict := [] }

/-- The `PyContext` struct: canonical references to the universal type
object and the integer type object. -/
structure PyContext where
  type_type : Ref
  int_type : Ref

/-- `PyContext::new`: build `type_type` first, then `int_type` with its
type-link pointing at `type_type`. -/
def PyContext.new (h : Heap) : PyContext × Heap :=
  let (type_type, h1) := objtype.create_type h
  let (int_type, h2) := objint.create_type type_type h1
  ({ type_type := type_type, int_type := int_type }, h2)

/-- `PyContext::new_int`: builds `Integer { value: i }` stamped with
`self.type_type.clone()` (the source passes `type_type`, not
`int_type`). -/
def PyContext.new_int (self : PyContext) (i : Int) (h : Heap) : Ref × Heap :=
  PyObject.new (.integer i) self.type_type h

/-- `PyContext::new_str`: `String` kind stamped with `self.type_type.clone()`. -/
def PyContext.new_str (self : PyContext) (s : String) (h : Heap) : Ref × Heap :=
  PyObject.new (.string s) self.type_type h

/-- `PyContext::new_bool`: `Boolean` kind stamped with `self.type_type.clone()`. -/
def PyContext.new_bool (self : PyContext) (b : Bool) (h : Heap) : Ref × Heap :=
  PyObject.new (.boolean b) self.type_type h

/-- `PyContext::new_class`: `Class` kind stamped with `self.type_type.clone()`. -/
def PyContext.new_class (self : PyContext) (name : String) (h : Heap) : Ref × Heap :=
  PyObject.new (.class_ name) self.type_type h

/-- `PyObject::nxt`, the iterator protocol: on an `Iterator` kind, borrow
the iterated object at call time; if it is a `List` and `position` is
strictly below its *current* element count, return the element reference
at `position` and increment `position` in place; otherwise return `None`
(exhaustion) with no state change.  Non-`Iterator` receivers and
non-`List` targets hit `panic!("NOT IMPL")`.  (An unallocated reference
cannot arise from `Rc`; that case is marked as a panic for totality.) -/
def PyObject.nxt (h : Heap) (r : Ref) : EvalResult (Option Ref) × Heap :=
  match Heap.get h r with
  | some obj =>
      match obj.kind with
      | .iterator position iterated_obj =>
          match Heap.get h iterated_obj with
          | some iobj =>
              match iobj.kind with
              | .list elements =>
                  if hlt : position < elements.length then
                    (.ok (some (elements.get ⟨position, hlt⟩)),
                      Heap.set h r { obj with kind := .iterator (position + 1) iterated_obj })
                  else
                    (.ok Option.none, h)
              | _ => (.panicked "NOT IMPL", h)
          | Option.none => (.panicked "invalid reference", h)
      | _ => (.panicked "NOT IMPL", h)
  | Option.none => (.panicked "invalid reference", h)

/-- Repeated `advance` calls: the outcomes of `n` successive `nxt` calls
on the iterator at `r`, threading the heap. -/
def nxtN (h : Heap) (r : Ref) : Nat → List (EvalResult (Option Ref)) × Heap
  | 0 => ([], h)
  | n + 1 =>
      let (res, h1) := PyObject.nxt h r
      let (rest, h2) := nxtN h1 r n
      (res :: rest, h2)

/-- Concrete scenario heap: integers 10, 20, 30 at references 0, 1, 2, the
list `[10, 20, 30]` at reference 3, and a fresh iterator over it at
reference 4. -/
def iterHeap3 : Heap :=
  ⟨[{ kind := .integer 10, typ := Option.none, dict := [] },
    { kind := .integer 20, typ := Option.none, dict := [] },
    { kind := .integer 30, typ := Option.none, dict := [] },
    { kind := .list [0, 1, 2], typ := Option.none, dict := [] },
    { kind := .iterator 0 3, typ := Option.none, dict := [] }]⟩

/-- Concrete scenario heap: the empty list at reference 0 and a fresh
iterator over it at reference 1. -/
def iterHeapEmpty : Heap :=
  ⟨[{ kind := .list [], typ := Option.none, dict := [] },
    { kind := .iterator 0 0, typ := Option.none, dict := [] }]⟩

end RefModel

example : (RefModel.nxtN RefModel.iterHeap3 4 4).1 =
    [.ok (some 0), .ok (some 1), .ok (some 2), .ok Option.none] := rfl
example : (RefModel.nxtN RefModel.iterHeapEmpty 1 1).1 = [.ok Option.none] := rfl

/-! ## Helper lemmas -/

theorem flatten_replicate_comm (x : List Char) (n : Nat) :
    (List.replicate n x).flatten ++ x = x ++ (List.replicate n x).flatten := by
  induction n with
  | zero => simp
  | succ n ih =>
      simp only [List.replicate_succ, List.flatten_cons, List.append_assoc, ih]

/-- The repeat loop of `impl Mul` builds the same character sequence as `n`
concatenated copies of the operand. -/
theorem strRepeat_data (s : String) (n : Nat) :
    (PyObjectKind.strRepeat s n).data = (List.replicate n s.data).flatten := by
  induction n with
  | zero => rfl
  | succ n ih =>
      calc (PyObjectKind.strRepeat s (n + 1)).data
          = (PyObjectKind.strRepeat s n).data ++ s.data := String.data_append _ _
        _ = (List.replicate n s.data).flatten ++ s.data := by rw [ih]
        _ = s.data ++ (List.replicate n s.data).flatten := flatten_replicate_comm s.data n
        _ = (List.replicate (n + 1) s.data).flatten := by
              rw [List.replicate_succ, List.flatten_cons]

/-! ## The claims -/

/-- C1 counterexample: dividing the Integer 5 by the Integer 0 takes the
Rust panic path — the process-terminating one — and does not deliver a
typed `DivisionByZeroError` through the two-outcome result channel. -/
theorem div_by_zero_panics_counterexample :
    PyObjectKind.div (.integer 5) (.integer 0) = .panicked "attempt to divide by zero"
    ∧ PyObjectKind.div (.integer 5) (.integer 0) ≠ .exc PyError.divisionByZeroError :=
  ⟨rfl, by simp [PyObjectKind.div]⟩

/-- C1 (amended): for Integer operands division is truncating integer
division (`divide(7,2) = 3`, and in general `Int.tdiv`, with the two Rust
panic exclusions), but a divisor of Integer 0 makes the operation panic —
the process-terminating path — rather than fail with a typed
`DivisionByZeroError` through the two-outcome result channel. -/
theorem div_integer_truncating_and_zero_panics :
    PyObjectKind.div (.integer 7) (.integer 2) = .ok (.integer 3)
    ∧ (∀ a b : Int, b ≠ 0 → ¬(a = i32Min ∧ b = -1) →
        PyObjectKind.div (.integer a) (.integer b) = .ok (.integer (Int.tdiv a b)))
    ∧ (∀ a : Int, PyObjectKind.div (.integer a) (.integer 0) =
        .panicked "attempt to divide by zero")
    ∧ (∀ (a : Int) (e : PyError), PyObjectKind.div (.integer a) (.integer 0) ≠ .exc e) := by
  refine ⟨rfl, ?_, ?_, ?_⟩
  · intro a b hb hmin
    simp [PyObjectKind.div, hb, hmin]
  · intro a
    simp [PyObjectKind.div]
  · intro a e
    simp [PyObjectKind.div]

/-- C1 witness: the general truncating-division case applied at `9 / -2`. -/
theorem div_integer_truncating_witness :
    PyObjectKind.div (.integer 9) (.integer (-2)) = .ok (.integer (-4)) := by
  have h := div_integer_truncating_and_zero_panics.2.1 9 (-2) (by decide) (by decide)
  exact h.trans (by rw [show Int.tdiv 9 (-2) = -4 from by decide])

/-- C2 counterexample: `add(MAX_INT, 1)` panics with the Rust overflow
panic (debug semantics); the outcome is neither a typed `OverflowError`
through the result channel nor a silently wrapped-around Integer. -/
theorem add_overflow_panics_counterexample :
    PyObjectKind.add (.integer 2147483647) (.integer 1) =
      .panicked "attempt to add with overflow"
    ∧ PyObjectKind.add (.integer 2147483647) (.integer 1) ≠ .exc PyError.overflowError
    ∧ PyObjectKind.add (.integer 2147483647) (.integer 1) ≠
        .ok (.integer (-2147483648)) := by
  refine ⟨?h, ?_, ?_⟩ <;> simp [PyObjectKind.add, i32InRange, i32Min, i32Max]

/-- C2 (amended): Integer `add` is the raw `i32` sum: every pair whose
mathematical sum is representable yields that sum as an Integer, and
`add(MAX_INT, 1)` panics with the overflow panic (debug build semantics) —
not a typed `OverflowError` through the result channel, and not a
silently wrapped-around value, because the addition aborts instead of
returning. -/
theorem add_integer_checked_spec :
    (∀ a b : Int, i32InRange (a + b) →
        PyObjectKind.add (.integer a) (.integer b) = .ok (.integer (a + b)))
    ∧ PyObjectKind.add (.integer i32Max) (.integer 1) =
        .panicked "attempt to add with overflow"
    ∧ (∀ e : PyError, PyObjectKind.add (.integer i32Max) (.integer 1) ≠ .exc e) := by
  refine ⟨?_, ?_, ?_⟩
  · intro a b hin
    simp [PyObjectKind.add, hin]
  · simp [PyObjectKind.add, i32InRange, i32Min, i32Max]
  · intro e
    simp [PyObjectKind.add, i32InRange, i32Min, i32Max]

/-- C2 witness: the representable-sum case applied at `1 + 2`. -/
theorem add_integer_checked_witness :
    PyObjectKind.add (.integer 1) (.integer 2) = .ok (.integer 3) :=
  add_integer_checked_spec.1 1 2 (by decide)

/-- C9: Integer addition is commutative — for all representable operands
the two orders produce the same outcome (the same Integer, or the same
overflow panic). -/
theorem add_integer_commutative :
    ∀ a b : Int, i32InRange a → i32InRange b →
      PyObjectKind.add (.integer a) (.integer b) =
        PyObjectKind.add (.integer b) (.integer a) := by
  intro a b _ _
  simp [PyObjectKind.add, Int.add_comm]

/-- C9 witness: commutativity applied at `3 + 4`. -/
theorem add_integer_commutative_witness :
    PyObjectKind.add (.integer 3) (.integer 4) =
      PyObjectKind.add (.integer 4) (.integer 3) :=
  add_integer_commutative 3 4 (by decide) (by decide)

/-- The pairings the specification lists as equatable: Integer/Integer,
String/String, List/List.  Every other pairing is unsupported. -/
def eqSupported : PyObjectKind → PyObjectKind → Bool
  | .integer _, .integer _ => true
  | .string _, .string _ => true
  | .list _, .list _ => true
  | _, _ => false

/-- C3 counterexample: the cross-kind comparison `equals(1, "1")` does not
fail with a typed `TypeError` through the result channel and does not
return `false` — it panics, the process-terminating path. -/
theorem eq_cross_kind_panics_counterexample :
    PyObjectKind.eq (.integer 1) (.string "1") =
      .panicked
        "TypeError in COMPARE_OP: can\x27t compare [PyObj Some kind of python obj] with [PyObj str[1]]"
    ∧ PyObjectKind.eq (.integer 1) (.string "1") ≠ .exc PyError.typeError
    ∧ PyObjectKind.eq (.integer 1) (.string "1") ≠ .ok false :=
  ⟨rfl, by simp [PyObjectKind.eq], by simp [PyObjectKind.eq]⟩

/-- C3 (amended): equality is defined exactly for Integer/Integer,
String/String and List/List pairs (value equality for the first two), and
for every other pairing of kinds — including every cross-kind pairing —
the comparison panics with the `TypeError in COMPARE_OP` message built
from the two operands' Debug renderings: the failure never returns
`false`, but it is the process-terminating path, not a typed failure
through the two-outcome result channel. -/
theorem eq_dispatch_spec :
    (∀ v1 v2 : Int,
        (PyObjectKind.eq (.integer v1) (.integer v2) = .ok true ↔ v1 = v2)
        ∧ (PyObjectKind.eq (.integer v1) (.integer v2) = .ok false ↔ v1 ≠ v2))
    ∧ (∀ s1 s2 : String,
        (PyObjectKind.eq (.string s1) (.string s2) = .ok true ↔ s1 = s2)
        ∧ (PyObjectKind.eq (.string s1) (.string s2) = .ok false ↔ s1 ≠ s2))
    ∧ (∀ a b : PyObjectKind, eqSupported a b = false →
        PyObjectKind.eq a b =
          .panicked ("TypeError in COMPARE_OP: can\x27t compare " ++
            PyObjectKind.objDebugFmt a ++ " with " ++ PyObjectKind.objDebugFmt b)) := by
  refine ⟨?_, ?_, ?_⟩
  · intro v1 v2
    constructor <;> simp [PyObjectKind.eq, eq_comm]
  · intro s1 s2
    constructor <;> simp [PyObjectKind.eq, eq_comm]
  · intro a b h
    cases a <;> cases b <;> simp_all [PyObjectKind.eq, eqSupported]

/-- C3 witness: the unsupported-pairing case applied to comparing the
Boolean `true` with `None`. -/
theorem eq_dispatch_spec_witness :
    PyObjectKind.eq (.boolean true) .none =
      .panicked ("TypeError in COMPARE_OP: can\x27t compare " ++
        PyObjectKind.objDebugFmt (.boolean true) ++ " with " ++
        PyObjectKind.objDebugFmt .none) :=
  eq_dispatch_spec.2.2 (.boolean true) .none rfl

/-- C5 counterexample: the `Dict` and `NameError` kinds have no rendering —
`str` falls into the process-terminating `panic!("Not impl")` fallback on
them, so the rendering is not total over the fifteen kinds. -/
theorem str_dict_nameerror_panic_counterexample :
    PyObjectKind.str (.dict []) = .panicked "Not impl"
    ∧ PyObjectKind.str (.nameError "x") = .panicked "Not impl" :=
  ⟨rfl, rfl⟩

/-- C5 (amended): `str` renders thirteen of the fifteen kinds — containers
recursively, `List` as `[e1, e2]`, `Tuple` as `{e1, e2}`, `None` as the
fixed literal — but the two kinds `Dict` and `NameError` fall into the
process-terminating `panic!("Not impl")` fallback, so the rendering is not
total over the variant set. -/
theorem str_rendering_spec :
    PyObjectKind.str (.integer 5) = .ok "5"
    ∧ PyObjectKind.str .none = .ok "None"
    ∧ PyObjectKind.str (.list [.integer 1, .integer 2]) = .ok "[1, 2]"
    ∧ PyObjectKind.str (.tuple [.integer 1, .integer 2]) = .ok "\x7b1, 2\x7d"
    ∧ (∀ (e1 e2 : PyObjectKind) (s1 s2 : String),
        PyObjectKind.str e1 = .ok s1 → PyObjectKind.str e2 = .ok s2 →
        PyObjectKind.str (.list [e1, e2]) = .ok ("[" ++ (s1 ++ ", " ++ s2) ++ "]"))
    ∧ (∀ (e1 e2 : PyObjectKind) (s1 s2 : String),
        PyObjectKind.str e1 = .ok s1 → PyObjectKind.str e2 = .ok s2 →
        PyObjectKind.str (.tuple [e1, e2]) = .ok ("\x7b" ++ (s1 ++ ", " ++ s2) ++ "\x7d"))
    ∧ (∀ elements, PyObjectKind.str (.dict elements) = .panicked "Not impl")
    ∧ (∀ name, PyObjectKind.str (.nameError name) = .panicked "Not impl") := by
  refine ⟨rfl, rfl, rfl, rfl, ?_, ?_, fun _ => rfl, fun _ => rfl⟩ <;>
    · intro e1 e2 s1 s2 h1 h2
      simp [PyObjectKind.str, PyObjectKind.strAll, h1, h2]
      rfl

/-- C5 witness: the recursive `List` rendering case applied to
`[True, None]`. -/
theorem str_rendering_spec_witness :
    PyObjectKind.str (.list [.boolean true, .none]) =
      .ok ("[" ++ ("true" ++ ", " ++ "None") ++ "]") :=
  str_rendering_spec.2.2.2.2.1 (.boolean true) .none "true" "None" rfl rfl

/-- C7: multiplying a String by an Integer `n` yields the string repeated
`n` times for positive `n` (`multiply("ab", 3) = "ababab"`), and the empty
string for every `n ≤ 0`. -/
theorem mul_string_integer_spec :
    PyObjectKind.mul (.string "ab") (.integer 3) = .ok (.string "ababab")
    ∧ PyObjectKind.mul (.string "ab") (.integer 0) = .ok (.string "")
    ∧ PyObjectKind.mul (.string "ab") (.integer (-1)) = .ok (.string "")
    ∧ (∀ (s : String) (n : Int), n ≤ 0 →
        PyObjectKind.mul (.string s) (.integer n) = .ok (.string ""))
    ∧ (∀ (s : String) (n : Int), 0 < n → ∃ r : String,
        PyObjectKind.mul (.string s) (.integer n) = .ok (.string r)
        ∧ r.data = (List.replicate n.toNat s.data).flatten) := by
  refine ⟨rfl, rfl, rfl, ?_, ?_⟩
  · intro s n hn
    simp [PyObjectKind.mul, Int.toNat_of_nonpos hn, PyObjectKind.strRepeat]
  · intro s n _
    exact ⟨PyObjectKind.strRepeat s n.toNat, rfl, strRepeat_data s n.toNat⟩

/-- C7 witness: the nonpositive case applied at `"cd" * -5` and the
positive case applied at `"ab" * 3`. -/
theorem mul_string_integer_spec_witness :
    PyObjectKind.mul (.string "cd") (.integer (-5)) = .ok (.string "")
    ∧ ∃ r : String,
        PyObjectKind.mul (.string "ab") (.integer 3) = .ok (.string r)
        ∧ r.data = (List.replicate (Int.toNat 3) "ab".data).flatten :=
  ⟨mul_string_integer_spec.2.2.2.1 "cd" (-5) (by decide),
   mul_string_integer_spec.2.2.2.2 "ab" 3 (by decide)⟩

/-- C8: adding two Lists returns a new List that is their element-wise
concatenation, left elements first, order preserved in both halves; the
concrete `concat([1,2],[3])` has length 3 and renders as `[1, 2, 3]`. -/
theorem add_list_concat_spec :
    (∀ e1 e2 : List PyObjectKind,
        PyObjectKind.add (.list e1) (.list e2) = .ok (.list (e1 ++ e2)))
    ∧ (∃ r : List PyObjectKind,
        PyObjectKind.add (.list [.integer 1, .integer 2]) (.list [.integer 3]) =
          .ok (.list r)
        ∧ r.length = 3
        ∧ PyObjectKind.str (.list r) = .ok "[1, 2, 3]") :=
  ⟨fun _ _ => rfl, ⟨[.integer 1, .integer 2, .integer 3], rfl, rfl, rfl⟩⟩

/-- C4: the factory evaluated at the failing input.  Starting from the
empty heap, `PyContext::new` allocates the universal type object
(`type_type`, reference 0) and then the integer type object (`int_type`,
reference 1); `new_int(5)` stamps the Integer object it builds with
`self.type_type.clone()` — the universal type object — which is a distinct
object from the canonical integer type `int_type` the context holds and
the claim requires. -/
theorem new_int_stamps_type_type :
    (RefModel.PyContext.new RefModel.emptyHeap).1.type_type = 0
    ∧ (RefModel.PyContext.new RefModel.emptyHeap).1.int_type = 1
    ∧ (let ctxh := RefModel.PyContext.new RefModel.emptyHeap
       let rh := RefModel.PyContext.new_int ctxh.1 5 ctxh.2
       (RefModel.Heap.get rh.2 rh.1).map RefModel.PyObject.typ =
          some (some ctxh.1.type_type)
       ∧ ctxh.1.type_type ≠ ctxh.1.int_type) :=
  ⟨rfl, rfl, rfl, by decide⟩

/-- C10: `PyObject::default()` builds an Object with kind `None`, an
absent type-link and an empty attribute table, outside every `PyContext`
factory — so an Object with an absent type-link exists (here, freshly
allocated after a full `PyContext::new` bootstrap) that is not the root
type object. -/
theorem default_object_spec :
    RefModel.PyObject.default.kind = .none
    ∧ RefModel.PyObject.default.typ = Option.none
    ∧ RefModel.PyObject.default.dict = []
    ∧ (let ctxh := RefModel.PyContext.new RefModel.emptyHeap
       let rh := RefModel.Heap.alloc ctxh.2 RefModel.PyObject.default
       rh.1 ≠ ctxh.1.type_type
       ∧ (RefModel.Heap.get rh.2 rh.1).map RefModel.PyObject.typ =
           some Option.none) :=
  ⟨rfl, rfl, rfl, by decide, rfl⟩

/-- C6: `advance` on an Iterator over a List compares `position` against
the target list's element count as read from the heap at that call (no
snapshot — the first conjunct characterizes the step on *every* heap in
terms of the list's current elements): below the count it returns the
element at `position` and increments `position` in place; at or past the
count it signals exhaustion with the heap unchanged, so exhaustion is
terminal and idempotent as long as the target is not mutated.  Iterating
`[10,20,30]` yields 10, 20, 30, then exhaustion on the fourth call;
iterating `[]` yields exhaustion on the first call. -/
theorem iterator_advance_spec :
    (∀ (h : RefModel.Heap) (r t : RefModel.Ref) (position : Nat)
        (elements : List RefModel.Ref) (obj iobj : RefModel.PyObject),
        RefModel.Heap.get h r = some obj →
        obj.kind = .iterator position t →
        RefModel.Heap.get h t = some iobj →
        iobj.kind = .list elements →
        (elements.length ≤ position →
            RefModel.PyObject.nxt h r = (.ok Option.none, h))
        ∧ (∀ hlt : position < elements.length,
            RefModel.PyObject.nxt h r =
              (.ok (some (elements.get ⟨position, hlt⟩)),
               RefModel.Heap.set h r
                 { obj with kind := .iterator (position + 1) t })))
    ∧ (RefModel.nxtN RefModel.iterHeap3 4 4).1 =
        [.ok (some 0), .ok (some 1), .ok (some 2), .ok Option.none]
    ∧ ((RefModel.Heap.get RefModel.iterHeap3 0).map RefModel.PyObject.kind =
          some (.integer 10)
       ∧ (RefModel.Heap.get RefModel.iterHeap3 1).map RefModel.PyObject.kind =
          some (.integer 20)
       ∧ (RefModel.Heap.get RefModel.iterHeap3 2).map RefModel.PyObject.kind =
          some (.integer 30))
    ∧ (RefModel.nxtN RefModel.iterHeapEmpty 1 1).1 = [.ok Option.none] := by
  refine ⟨?_, rfl, ⟨rfl, rfl, rfl⟩, rfl⟩
  intro h r t position elements obj iobj hgr hkr hgt hkt
  constructor
  · intro hle
    simp only [RefModel.PyObject.nxt, hgr, hkr, hgt, hkt]
    rw [dif_neg (by omega)]
  · intro hlt
    simp only [RefModel.PyObject.nxt, hgr, hkr, hgt, hkt]
    rw [dif_pos hlt]

/-- C6 witness: the below-count step applied to the concrete heap holding
`[10,20,30]` with a fresh iterator at reference 4. -/
theorem iterator_advance_spec_witness :
    RefModel.PyObject.nxt RefModel.iterHeap3 4 =
      (.ok (some 0),
       RefModel.Heap.set RefModel.iterHeap3 4
         { kind := .iterator 1 3, typ := Option.none, dict := [] }) :=
  (iterator_advance_spec.1 RefModel.iterHeap3 4 3 0 [0, 1, 2]
      { kind := .iterator 0 3, typ := Option.none, dict := [] }
      { kind := .list [0, 1, 2], typ := Option.none, dict := [] }
      rfl rfl rfl rfl).2 (by decide)
